import Mathlib

/-!
Shallow embedding of the storage-abstraction and enrichment-orchestration
layer of the library catalog service (FastAPI application).

Sources embedded:
* app/schemas/books.py      — the record model (`Book`, `BookCreate`, `BookUpdate`)
* app/crud/service.py       — `BookCrudService` (create / get_all / get_by_id /
                              update / delete) on the JSON ("file"/"jsonbin")
                              storage path, with the Postgres branch where a
                              claim needs it
* app/database.py           — `FileRepository.load_data` and
                              `DbPostgresRepository.get_next_id` /
                              row operations
* app/services/openlibrary_api.py — `OpenLibraryApi.enrich_book_data`

Python `Optional[T]` becomes `Option T`; Python truthiness on optionals
(`if cover_url:`) is modelled explicitly (`none`, the empty string and the
zero float are falsy).  The external Open Library responses are modelled as
an explicit environment record, and the enrichment call made by the CRUD
service is a parameter `enrichFn : String → EnrichResult` (the service calls
it on the title exactly where the source calls `enrich_book_data`).
Machine floats carry no arithmetic here, so ratings are embedded as `Rat`.
-/

/-- Availability of a book: the two members of the `AvailabilityStatus`
string enum (`"available"` / `"borrowed"`). Both members are non-empty
strings, hence truthy in Python. -/
inductive AvailabilityStatus where
  | available
  | borrowed
deriving DecidableEq, Repr

/-- Caller-supplied creation input (`BookCreate` in app/schemas/books.py):
the required fields of a book, without identity or enrichment fields. -/
structure BookCreate where
  title : String
  author : String
  publication_year : Int
  genre : String
  pages : Int
  availability : AvailabilityStatus
deriving DecidableEq, Repr

/-- The full record (`Book` in app/schemas/books.py): identity plus the
required fields plus the three optional enrichment fields, which default
to `None`. -/
structure Book where
  id : Int
  title : String
  author : String
  publication_year : Int
  genre : String
  pages : Int
  availability : AvailabilityStatus
  cover_url : Option String
  description : Option String
  rating : Option Rat
deriving DecidableEq, Repr

/-- Partial update input (`BookUpdate` in app/schemas/books.py) as seen
through `model_dump(exclude_unset=True)`: each field is either unset
(`none`), explicitly set to null (`some none`), or set to a value
(`some (some v)`). -/
structure BookUpdate where
  title : Option (Option String)
  author : Option (Option String)
  publication_year : Option (Option Int)
  genre : Option (Option String)
  pages : Option (Option Int)
  availability : Option (Option AvailabilityStatus)
deriving DecidableEq, Repr

/-- The update input with every field unset (an empty request body). -/
def BookUpdate.empty : BookUpdate :=
  ⟨none, none, none, none, none, none⟩

/-- Result triple of `OpenLibraryApi.enrich_book_data`: optional cover URL,
optional description, optional rating. -/
structure EnrichResult where
  cover_url : Option String
  description : Option String
  rating : Option Rat
deriving DecidableEq, Repr

/-- Python truthiness of an `Optional[str]`: `None` and `""` are falsy. -/
def pyTruthyStr : Option String → Bool
  | some s => decide (s ≠ "")
  | none => false

/-- Python truthiness of an `Optional[float]`: `None` and `0.0` are falsy. -/
def pyTruthyRat : Option Rat → Bool
  | some r => decide (r ≠ 0)
  | none => false

/-- Python truthiness of an `Optional[int]`: `None` and `0` are falsy. -/
def pyTruthyInt : Option Int → Bool
  | some n => decide (n ≠ 0)
  | none => false

/-- Collection state persisted by the File/JsonBin backends: the `books`
list and the `next_id` counter of the stored JSON document. -/
structure CollectionState where
  books : List Book
  next_id : Int
deriving DecidableEq, Repr

namespace FileRepository

/-- Contents of the backing JSON file as seen by `load_data`: the file may
be missing, hold content that fails JSON decoding, or hold a decoded
collection document. -/
inductive FileContents where
  | missing
  | malformed
  | valid (data : CollectionState)
deriving DecidableEq, Repr

/-- `FileRepository.load_data` (app/database.py): returns the decoded
document; on a missing file or a `JSONDecodeError` it returns
`{"books": [], "next_id": 1}` instead of raising. -/
def load_data : FileContents → CollectionState
  | .missing => ⟨[], 1⟩
  | .malformed => ⟨[], 1⟩
  | .valid data => data

end FileRepository

namespace BookCrudService

/-- The record built by `create` before enrichment: `book.model_dump()`
plus the assigned id; the optional fields are absent from the dict and
default to `None` in the `Book` model. -/
def mkBook (nid : Int) (input : BookCreate) : Book :=
  { id := nid
    title := input.title
    author := input.author
    publication_year := input.publication_year
    genre := input.genre
    pages := input.pages
    availability := input.availability
    cover_url := none
    description := none
    rating := none }

/-- The three `if cover_url: ... if description: ... if rating: ...` blocks
shared by `create` and `update`: each enrichment field is written onto the
record only when the returned value is truthy. -/
def overlayEnrich (b : Book) (e : EnrichResult) : Book :=
  { b with
    cover_url := if pyTruthyStr e.cover_url then e.cover_url else b.cover_url
    description := if pyTruthyStr e.description then e.description else b.description
    rating := if pyTruthyRat e.rating then e.rating else b.rating }

/-- `BookCrudService.create` on the JSON storage path: take `next_id` from
the loaded document, build the record, overlay truthy enrichment results,
append it to `books` and save with the counter incremented. Returns the
created record and the saved state. -/
def create (s : CollectionState) (input : BookCreate)
    (enrichFn : String → EnrichResult) : Book × CollectionState :=
  let nid := s.next_id
  let b := overlayEnrich (mkBook nid input) (enrichFn input.title)
  (b, { books := s.books ++ [b], next_id := nid + 1 })

/-- `BookCrudService.get_by_id` on the JSON storage path: linear scan for
the first stored record whose id matches. -/
def get_by_id (s : CollectionState) (book_id : Int) : Option Book :=
  s.books.find? (fun b => b.id == book_id)

/-- Loop guard for the author filter in `get_all`: the record is skipped
iff the filter is truthy (supplied and non-empty) and the lower-cased
strings differ. -/
def authorSkip (author : Option String) (b : Book) : Bool :=
  match author with
  | none => false
  | some a => if a = "" then false else decide (b.author.toLower ≠ a.toLower)

/-- Loop guard for the genre filter in `get_all`, same shape as the author
guard. -/
def genreSkip (genre : Option String) (b : Book) : Bool :=
  match genre with
  | none => false
  | some g => if g = "" then false else decide (b.genre.toLower ≠ g.toLower)

/-- Loop guard for the availability filter in `get_all`: both enum members
are non-empty strings, so a supplied filter is always truthy and the
record is skipped exactly when the values differ. -/
def availabilitySkip (availability : Option AvailabilityStatus) (b : Book) : Bool :=
  match availability with
  | none => false
  | some av => decide (b.availability ≠ av)

/-- The filtering loop of `get_all`: walk the stored list in order,
skipping a record when any guard fires, appending it otherwise. -/
def filterLoop (author genre : Option String)
    (availability : Option AvailabilityStatus) : List Book → List Book
  | [] => []
  | b :: rest =>
    if authorSkip author b then filterLoop author genre availability rest
    else if genreSkip genre b then filterLoop author genre availability rest
    else if availabilitySkip availability b then filterLoop author genre availability rest
    else b :: filterLoop author genre availability rest

/-- `BookCrudService.get_all` on the JSON storage path: filter the loaded
list, then slice `filtered_books[offset : offset + limit]` (non-negative
offset and limit are modelled; the slice is drop-then-take). -/
def get_all (s : CollectionState) (offset limit : Nat)
    (author genre : Option String)
    (availability : Option AvailabilityStatus) : List Book :=
  ((filterLoop author genre availability s.books).drop offset).take limit

/-- The merge loop of `update`: every field of the update dict that is
present and not `None` is written onto the record dict; the enrichment
fields are not part of `BookUpdate` and are never touched here. -/
def applyUpdate (b : Book) (u : BookUpdate) : Book :=
  { b with
    title := match u.title with | some (some v) => v | _ => b.title
    author := match u.author with | some (some v) => v | _ => b.author
    publication_year :=
      match u.publication_year with | some (some v) => v | _ => b.publication_year
    genre := match u.genre with | some (some v) => v | _ => b.genre
    pages := match u.pages with | some (some v) => v | _ => b.pages
    availability :=
      match u.availability with | some (some v) => v | _ => b.availability }

/-- The write-back loop of `update`: replace the first stored record whose
id matches with the merged record, then stop. -/
def replaceById : List Book → Int → Book → List Book
  | [], _, _ => []
  | b :: rest, book_id, nb =>
    if b.id == book_id then nb :: rest else b :: replaceById rest book_id nb

/-- `BookCrudService.update` on the JSON storage path. Returns the merged
record (or `none` when the id is unknown), the resulting stored state, and
whether `save_data` was called. Enrichment is re-invoked exactly when the
`title` key is present in the update dict — even when its value is null —
and is called on the merged record's title. -/
def update (s : CollectionState) (book_id : Int) (u : BookUpdate)
    (enrichFn : String → EnrichResult) :
    Option Book × CollectionState × Bool :=
  match get_by_id s book_id with
  | none => (none, s, false)
  | some book =>
    let merged := applyUpdate book u
    let merged2 :=
      if u.title.isSome then overlayEnrich merged (enrichFn merged.title) else merged
    (some merged2, { s with books := replaceById s.books book_id merged2 }, true)

/-- `BookCrudService.delete` on the JSON storage path: if the id is
unknown return `false` without saving; otherwise keep every record whose
id differs, save, and return `true`. -/
def delete (s : CollectionState) (book_id : Int) : Bool × CollectionState :=
  match get_by_id s book_id with
  | none => (false, s)
  | some _ => (true, { s with books := s.books.filter (fun b => b.id != book_id) })

end BookCrudService

namespace DbPostgresRepository

/-- `DbPostgresRepository.get_next_id` (app/database.py): the highest
existing id plus one, or 1 when the table is empty. -/
def get_next_id (table : List Book) : Int :=
  match table.map (fun b => b.id) with
  | [] => 1
  | i :: is => is.foldl max i + 1

/-- `BookCrudService.create` on the Postgres storage path: id from
`get_next_id`, same build-and-enrich as the JSON path, then a single-row
insert. -/
def db_create (table : List Book) (input : BookCreate)
    (enrichFn : String → EnrichResult) : Book × List Book :=
  let nid := get_next_id table
  let b := BookCrudService.overlayEnrich (BookCrudService.mkBook nid input)
    (enrichFn input.title)
  (b, table ++ [b])

/-- Row removal in `DbPostgresRepository.delete_data`: delete the first
row whose id matches (the id is the primary key). -/
def eraseById : List Book → Int → List Book
  | [], _ => []
  | b :: rest, book_id =>
    if b.id == book_id then rest else b :: eraseById rest book_id

/-- `BookCrudService.delete` on the Postgres storage path: look the row up
first; if absent return `false`, otherwise remove the row and return
`true`. -/
def db_delete (table : List Book) (book_id : Int) : Bool × List Book :=
  match table.find? (fun b => b.id == book_id) with
  | none => (false, table)
  | some _ => (true, eraseById table book_id)

end DbPostgresRepository

/-- Python `a or b` on optional strings: the left value when it is truthy,
otherwise the right value as-is. -/
def pyOrStr (a b : Option String) : Option String :=
  if pyTruthyStr a then a else b

/-- Python `a or b` on optional ints: the left value when it is truthy,
otherwise the right value as-is. -/
def pyOrInt (a b : Option Int) : Option Int :=
  if pyTruthyInt a then a else b

namespace OpenLibraryApi

/-- The first search document returned by `/search.json` for the queried
title: the keys `enrich_book_data` reads from it, each `none` when the key
is missing from the JSON object. -/
structure SearchDoc where
  key : Option String
  work_key : Option String
  cover_i : Option Int
  cover_id : Option Int
  edition_key : Option (List String)
deriving DecidableEq, Repr

/-- The work-details document fetched by `get_book_details`: the only key
read from it is its own `key`, used to build the editions request. -/
structure BookDetails where
  key : Option String
deriving DecidableEq, Repr

/-- The `description` object of an edition entry: its `type` and `value`
keys, each `none` when missing (a missing key raises `KeyError`, which the
enclosing handler turns into an absent description). -/
structure DescriptionField where
  dtype : Option String
  value : Option String
deriving DecidableEq, Repr

/-- One entry of the editions response: its optional `description`
object. -/
structure EditionEntry where
  description : Option DescriptionField
deriving DecidableEq, Repr

/-- Responses of the external Open Library service for the single
enrichment call under consideration.  A `none` request result models both
a failed request and a falsy (empty or absent) payload, which the source
treats identically at each use site. -/
structure OLEnv where
  searchResult : Option SearchDoc
  detailsResult : Option BookDetails
  editionsResult : Option (Option (List EditionEntry))
  ratingResult : Option (Option Rat)
deriving Repr

/-- The scan over edition entries inside `get_book_description`: take the
first entry holding a `description` of type `/type/text`; an entry whose
`description` lacks `type` or `value` raises `KeyError`, which the
enclosing handler turns into an absent result. -/
def findDescription : List EditionEntry → Option String
  | [] => none
  | e :: rest =>
    match e.description with
    | none => findDescription rest
    | some d =>
      match d.dtype with
      | none => none
      | some t =>
        if t = "/type/text" then
          match d.value with
          | none => none
          | some v => some v
        else findDescription rest

/-- `OpenLibraryApi.get_book_description`: request the editions of the
details document's `key` and scan the entries; any failure (missing key,
failed request, response without `entries`) yields `None`. -/
def get_book_description (details : BookDetails)
    (editionsResult : Option (Option (List EditionEntry))) : Option String :=
  match details.key with
  | none => none
  | some _ =>
    match editionsResult with
    | none => none
    | some none => none
    | some (some entries) => findDescription entries

/-- `OpenLibraryApi.get_book_rating`: the `summary.average` of the ratings
response, `None` on a failed request or when the path is missing. -/
def get_book_rating (ratingResult : Option (Option Rat)) : Option Rat :=
  match ratingResult with
  | some (some r) => some r
  | _ => none

/-- `OpenLibraryApi.get_cover_url` with the default `M` size: the last
`/`-separated segment of the identifier, `None` when that segment is
empty, otherwise the deterministic covers URL. -/
def get_cover_url (book_id : String) : Option String :=
  let olid := if book_id.contains '/' then (book_id.splitOn "/").getLastD "" else book_id
  if olid = "" then none
  else some (s!"https://covers.openlibrary.org/b/OLID/{olid}-M.jpg")

/-- The covers URL built directly from a numeric cover id in
`enrich_book_data`. -/
def coverUrlFromId (n : Int) : String :=
  s!"https://covers.openlibrary.org/b/id/{n}-M.jpg"

/-- The `elif "edition_key" in ... and book_search_result["edition_key"]:`
branch: the cover resolved from the first edition key when the list is
present and non-empty. -/
def editionCover (doc : SearchDoc) : Option String :=
  match doc.edition_key with
  | some (e :: _) => get_cover_url e
  | _ => none

/-- `OpenLibraryApi.enrich_book_data`: search for the title; on no result
return the all-absent triple; otherwise resolve the work key
(`key or work_key`), fetch details, description and rating when the key is
truthy and the details are, and resolve the cover from a truthy numeric
cover id or else from the first edition key.  Total: every failure path of
the source returns absent values instead of raising. -/
def enrich_book_data (env : OLEnv) : EnrichResult :=
  match env.searchResult with
  | none => ⟨none, none, none⟩
  | some doc =>
    let work_key := pyOrStr doc.key doc.work_key
    let dr :=
      if pyTruthyStr work_key then
        match env.detailsResult with
        | none => ((none : Option String), (none : Option Rat))
        | some details =>
          (get_book_description details env.editionsResult,
           get_book_rating env.ratingResult)
      else ((none : Option String), (none : Option Rat))
    let cover_id := pyOrInt doc.cover_i doc.cover_id
    let cover_url :=
      if pyTruthyInt cover_id then cover_id.map coverUrlFromId
      else editionCover doc
    ⟨cover_url, dr.1, dr.2⟩

end OpenLibraryApi

namespace OpenLibraryApi

/-- C9: the enrichment entry point is a total function of the external
responses (the source's catch-all handlers never let an exception
escape), a failed search yields the all-absent triple, a falsy work key
or failed details fetch yields absent description and rating, a failed
editions or ratings fetch yields an absent description or rating
respectively, and the fields that were determined — a cover from a truthy
numeric cover id, a rating from a successful ratings fetch — are returned
regardless of the other steps. -/
theorem enrich_step_failures_yield_absent (env : OLEnv) :
    (env.searchResult = none → enrich_book_data env = ⟨none, none, none⟩) ∧
    (∀ doc, env.searchResult = some doc →
      (pyTruthyStr (pyOrStr doc.key doc.work_key) = false →
        (enrich_book_data env).description = none ∧
        (enrich_book_data env).rating = none) ∧
      (env.detailsResult = none →
        (enrich_book_data env).description = none ∧
        (enrich_book_data env).rating = none) ∧
      (env.editionsResult = none → (enrich_book_data env).description = none) ∧
      (env.ratingResult = none → (enrich_book_data env).rating = none) ∧
      (∀ n, pyOrInt doc.cover_i doc.cover_id = some n → n ≠ 0 →
        (enrich_book_data env).cover_url = some (coverUrlFromId n)) ∧
      (∀ details r, env.detailsResult = some details →
        pyTruthyStr (pyOrStr doc.key doc.work_key) = true →
        env.ratingResult = some (some r) →
        (enrich_book_data env).rating = some r)) := by
  constructor
  · intro h
    simp [enrich_book_data, h]
  · intro doc hdoc
    refine ⟨?_, ?_, ?_, ?_, ?_, ?_⟩
    · intro hwk
      constructor <;> simp [enrich_book_data, hdoc, hwk]
    · intro hd
      by_cases hwk : pyTruthyStr (pyOrStr doc.key doc.work_key) = true <;>
        constructor <;> simp [enrich_book_data, hdoc, hd, hwk]
    · intro he
      by_cases hwk : pyTruthyStr (pyOrStr doc.key doc.work_key) = true
      · cases hd : env.detailsResult with
        | none => simp [enrich_book_data, hdoc, hwk, hd]
        | some details =>
          cases hk : details.key with
          | none => simp [enrich_book_data, hdoc, hwk, hd, get_book_description, hk]
          | some k => simp [enrich_book_data, hdoc, hwk, hd, get_book_description, hk, he]
      · simp [enrich_book_data, hdoc, hwk]
    · intro hr
      by_cases hwk : pyTruthyStr (pyOrStr doc.key doc.work_key) = true
      · cases hd : env.detailsResult with
        | none => simp [enrich_book_data, hdoc, hwk, hd]
        | some details => simp [enrich_book_data, hdoc, hwk, hd, get_book_rating, hr]
      · simp [enrich_book_data, hdoc, hwk]
    · intro n hn hnz
      simp [enrich_book_data, hdoc, hn, pyTruthyInt, hnz]
    · intro details r hd hwk hr
      simp [enrich_book_data, hdoc, hd, hwk, get_book_rating, hr]

/-- Witness for C9: a failed search yields the all-absent triple. -/
theorem enrich_step_failures_yield_absent_witness :
    enrich_book_data ⟨none, none, none, none⟩ = ⟨none, none, none⟩ :=
  (enrich_step_failures_yield_absent ⟨none, none, none, none⟩).1 rfl

end OpenLibraryApi

/-! Concrete fixtures used to instantiate the theorems below. -/

/-- An enrichment stub whose lookup finds nothing. -/
def noEnrich : String → EnrichResult := fun _ => ⟨none, none, none⟩

/-- A concrete creation input (the spec's example scenario). -/
def sampleCreate : BookCreate :=
  { title := "Dune"
    author := "Frank Herbert"
    publication_year := 1965
    genre := "Sci-Fi"
    pages := 412
    availability := .available }

/-- The record the sample input yields under absent enrichment, id 1. -/
def sampleBook : Book :=
  { id := 1
    title := "Dune"
    author := "Frank Herbert"
    publication_year := 1965
    genre := "Sci-Fi"
    pages := 412
    availability := .available
    cover_url := none
    description := none
    rating := none }

/-- A stored collection holding the sample record, counter at 2. -/
def sampleState : CollectionState := ⟨[sampleBook], 2⟩

/-! Helper lemmas about list scans shared by several results. -/

/-- Scanning a list extended on the right finds the new element when no
earlier element satisfies the predicate. -/
theorem find?_append_right {l : List Book} {b : Book} {p : Book → Bool}
    (h : ∀ c ∈ l, p c = false) (hb : p b = true) :
    (l ++ [b]).find? p = some b := by
  induction l with
  | nil => simp [List.find?, hb]
  | cons x xs ih =>
    have hx : p x = false := h x (by simp)
    simpa [List.find?, hx] using ih fun c hc => h c (by simp [hc])

/-- Replacing the first id-match with the record the scan itself found
leaves the list unchanged. -/
theorem replaceById_eq_self {l : List Book} {i : Int} {b : Book}
    (h : l.find? (fun c => c.id == i) = some b) :
    BookCrudService.replaceById l i b = l := by
  induction l with
  | nil => simp at h
  | cons x xs ih =>
    by_cases hx : (x.id == i) = true
    · simp only [List.find?, hx, Option.some.injEq] at h
      subst h
      simp [BookCrudService.replaceById, hx]
    · have hx2 : (x.id == i) = false := by simpa using hx
      simp only [List.find?, hx2] at h
      simp [BookCrudService.replaceById, hx2, ih h]

/-- Lower-casing a non-empty string never yields the empty string. -/
theorem toLower_ne_empty {s : String} (h : s ≠ "") : s.toLower ≠ "" := by
  rw [String.toLower, String.map_eq]
  intro hc
  apply h
  have hdata : s.data.map Char.toLower = [] := by
    simpa using congrArg String.data hc
  have hnil : s.data = [] := by simpa using hdata
  cases s with
  | mk d => rw [show d = [] from hnil]

/-- No record survives the delete filter and still matches the deleted
id. -/
theorem find?_filter_ne (l : List Book) (i : Int) :
    (l.filter (fun b => b.id != i)).find? (fun b => b.id == i) = none := by
  rw [List.find?_eq_none]
  intro x hx
  have hne := (List.mem_filter.mp hx).2
  simp only [bne_iff_ne, ne_eq] at hne
  simpa using hne

namespace BookCrudService

/-- C8: loading the File backend's collection when the backing file is
missing, or when its content fails JSON decoding, yields the empty
collection with next identity 1; `load_data` is a total function of the
file contents, so neither case raises. -/
theorem load_data_missing_or_malformed_empty :
    FileRepository.load_data .missing = ⟨[], 1⟩ ∧
    FileRepository.load_data .malformed = ⟨[], 1⟩ :=
  ⟨rfl, rfl⟩

/-- C3: updating an existing record with the empty partial input returns
the previously stored record unchanged, leaves the stored collection
unchanged, and still performs a persist (the save flag is set). -/
theorem update_empty_input_noop_persists
    (s : CollectionState) (book_id : Int) (b : Book)
    (enrichFn : String → EnrichResult)
    (h : get_by_id s book_id = some b) :
    update s book_id BookUpdate.empty enrichFn = (some b, s, true) := by
  have happ : applyUpdate b (⟨none, none, none, none, none, none⟩ : BookUpdate) = b := rfl
  have hrep : replaceById s.books book_id b = s.books := replaceById_eq_self h
  simp only [update, h, BookUpdate.empty, Option.isSome_none, Bool.false_eq_true,
    if_false, happ, hrep]

/-- Witness for C3 at a concrete stored record. -/
theorem update_empty_input_noop_persists_witness :
    update sampleState 1 BookUpdate.empty noEnrich = (some sampleBook, sampleState, true) :=
  update_empty_input_noop_persists sampleState 1 sampleBook noEnrich (by decide)

/-- C7: deleting an existing identity returns `true` and a subsequent
read-by-id on that identity returns absent; deleting an unknown identity
returns `false` and leaves the stored state untouched. -/
theorem delete_then_get_absent (s : CollectionState) (book_id : Int) :
    ((get_by_id s book_id).isSome →
      (delete s book_id).1 = true ∧ get_by_id (delete s book_id).2 book_id = none) ∧
    (get_by_id s book_id = none → delete s book_id = (false, s)) := by
  constructor
  · intro hsome
    cases h : get_by_id s book_id with
    | none => rw [h] at hsome; simp at hsome
    | some b =>
      refine ⟨by simp [delete, h], ?_⟩
      simp only [delete, h]
      exact find?_filter_ne s.books book_id
  · intro h
    simp [delete, h]

/-- Witness for C7: both branches exercised on the sample state. -/
theorem delete_then_get_absent_witness :
    ((delete sampleState 1).1 = true ∧ get_by_id (delete sampleState 1).2 1 = none) ∧
    delete sampleState 7 = (false, sampleState) :=
  ⟨(delete_then_get_absent sampleState 1).1 (by decide),
   (delete_then_get_absent sampleState 7).2 (by decide)⟩

/-- C6: creating a record and reading back the identity the create
returned yields exactly the created record, and every caller-supplied
field of that record equals the creation input's field.  The hypothesis
is the invariant that no stored record already carries the counter value
(maintained by every operation). -/
theorem create_get_by_id_roundtrip
    (s : CollectionState) (input : BookCreate) (enrichFn : String → EnrichResult)
    (h : ∀ c ∈ s.books, c.id ≠ s.next_id) :
    get_by_id (create s input enrichFn).2 (create s input enrichFn).1.id
      = some (create s input enrichFn).1 ∧
    (create s input enrichFn).1.title = input.title ∧
    (create s input enrichFn).1.author = input.author ∧
    (create s input enrichFn).1.publication_year = input.publication_year ∧
    (create s input enrichFn).1.genre = input.genre ∧
    (create s input enrichFn).1.pages = input.pages ∧
    (create s input enrichFn).1.availability = input.availability := by
  have hid : (create s input enrichFn).1.id = s.next_id := rfl
  refine ⟨?_, rfl, rfl, rfl, rfl, rfl, rfl⟩
  apply find?_append_right
  · intro c hc
    rw [hid]
    simpa using h c hc
  · simp [create]

/-- Projection facts: the enrichment overlay never touches the
caller-supplied fields. -/
theorem overlayEnrich_title (b : Book) (e : EnrichResult) :
    (overlayEnrich b e).title = b.title := rfl

/-- The enrichment overlay never touches the author field. -/
theorem overlayEnrich_author (b : Book) (e : EnrichResult) :
    (overlayEnrich b e).author = b.author := rfl

/-- The enrichment overlay never touches the publication year. -/
theorem overlayEnrich_publication_year (b : Book) (e : EnrichResult) :
    (overlayEnrich b e).publication_year = b.publication_year := rfl

/-- The enrichment overlay never touches the genre. -/
theorem overlayEnrich_genre (b : Book) (e : EnrichResult) :
    (overlayEnrich b e).genre = b.genre := rfl

/-- The enrichment overlay never touches the page count. -/
theorem overlayEnrich_pages (b : Book) (e : EnrichResult) :
    (overlayEnrich b e).pages = b.pages := rfl

/-- The enrichment overlay never touches the availability. -/
theorem overlayEnrich_availability (b : Book) (e : EnrichResult) :
    (overlayEnrich b e).availability = b.availability := rfl

/-- The merge loop never touches the cover field (`BookUpdate` has no such
key). -/
theorem applyUpdate_cover_url (b : Book) (u : BookUpdate) :
    (applyUpdate b u).cover_url = b.cover_url := rfl

/-- The merge loop never touches the description field. -/
theorem applyUpdate_description (b : Book) (u : BookUpdate) :
    (applyUpdate b u).description = b.description := rfl

/-- The merge loop never touches the rating field. -/
theorem applyUpdate_rating (b : Book) (u : BookUpdate) :
    (applyUpdate b u).rating = b.rating := rfl

/-- A truthy optional string is present. -/
theorem pyTruthyStr_isSome {o : Option String} (h : pyTruthyStr o = true) :
    o.isSome := by
  cases o with
  | none => simp [pyTruthyStr] at h
  | some s => rfl

/-- A truthy optional rational is present. -/
theorem pyTruthyRat_isSome {o : Option Rat} (h : pyTruthyRat o = true) :
    o.isSome := by
  cases o with
  | none => simp [pyTruthyRat] at h
  | some r => rfl

/-- An enrichment stub returning a zero rating: non-absent, yet falsy. -/
def zeroRatingEnrich : String → EnrichResult := fun _ => ⟨none, none, some 0⟩

/-- Counterexample to C2 as stated: the enrichment call returns the
non-absent rating `0.0`, but the created record does not carry it — the
overlay tests Python truthiness, and `0.0` is falsy. -/
theorem create_zero_rating_not_carried :
    (zeroRatingEnrich sampleCreate.title).rating = some 0 ∧
    (create ⟨[], 1⟩ sampleCreate zeroRatingEnrich).1.rating = none := by
  constructor
  · rfl
  · decide

/-- C2 (amended): on create, and on any update whose input contains the
title key, each enrichment result field is carried onto the returned
record exactly when the returned value is truthy (a non-empty string, a
non-zero rating): a truthy value is carried, and a falsy value (absent,
empty string, zero rating) is ignored, the field keeping its prior value
— the creation default `none` on create, the previously stored value on
update.  The create also persists exactly the returned record. -/
theorem enrich_truthy_results_carried
    (s : CollectionState) (input : BookCreate) (book_id : Int) (u : BookUpdate)
    (b : Book) (enrichFn : String → EnrichResult) :
    ((pyTruthyStr (enrichFn input.title).cover_url = true →
      (create s input enrichFn).1.cover_url = (enrichFn input.title).cover_url) ∧
     (pyTruthyStr (enrichFn input.title).cover_url = false →
      (create s input enrichFn).1.cover_url = none)) ∧
    ((pyTruthyStr (enrichFn input.title).description = true →
      (create s input enrichFn).1.description = (enrichFn input.title).description) ∧
     (pyTruthyStr (enrichFn input.title).description = false →
      (create s input enrichFn).1.description = none)) ∧
    ((pyTruthyRat (enrichFn input.title).rating = true →
      (create s input enrichFn).1.rating = (enrichFn input.title).rating) ∧
     (pyTruthyRat (enrichFn input.title).rating = false →
      (create s input enrichFn).1.rating = none)) ∧
    (create s input enrichFn).2.books = s.books ++ [(create s input enrichFn).1] ∧
    (get_by_id s book_id = some b → u.title.isSome = true →
      ∃ m, (update s book_id u enrichFn).1 = some m ∧
        ((pyTruthyStr (enrichFn (applyUpdate b u).title).cover_url = true →
          m.cover_url = (enrichFn (applyUpdate b u).title).cover_url) ∧
         (pyTruthyStr (enrichFn (applyUpdate b u).title).cover_url = false →
          m.cover_url = b.cover_url)) ∧
        ((pyTruthyStr (enrichFn (applyUpdate b u).title).description = true →
          m.description = (enrichFn (applyUpdate b u).title).description) ∧
         (pyTruthyStr (enrichFn (applyUpdate b u).title).description = false →
          m.description = b.description)) ∧
        ((pyTruthyRat (enrichFn (applyUpdate b u).title).rating = true →
          m.rating = (enrichFn (applyUpdate b u).title).rating) ∧
         (pyTruthyRat (enrichFn (applyUpdate b u).title).rating = false →
          m.rating = b.rating))) := by
  refine ⟨⟨?_, ?_⟩, ⟨?_, ?_⟩, ⟨?_, ?_⟩, rfl, ?_⟩
  · intro ht
    simp [create, overlayEnrich, ht]
  · intro ht
    simp [create, overlayEnrich, ht, mkBook]
  · intro ht
    simp [create, overlayEnrich, ht]
  · intro ht
    simp [create, overlayEnrich, ht, mkBook]
  · intro ht
    simp [create, overlayEnrich, ht]
  · intro ht
    simp [create, overlayEnrich, ht, mkBook]
  · intro h ht
    refine ⟨overlayEnrich (applyUpdate b u) (enrichFn (applyUpdate b u).title),
      ?_, ⟨?_, ?_⟩, ⟨?_, ?_⟩, ⟨?_, ?_⟩⟩
    · simp only [update, h, ht, if_true]
    · intro hc
      simp [overlayEnrich, hc]
    · intro hc
      simp [overlayEnrich, hc, applyUpdate_cover_url]
    · intro hd
      simp [overlayEnrich, hd]
    · intro hd
      simp [overlayEnrich, hd, applyUpdate_description]
    · intro hr
      simp [overlayEnrich, hr]
    · intro hr
      simp [overlayEnrich, hr, applyUpdate_rating]

/-- An enrichment stub returning truthy values for all three fields. -/
def richEnrich : String → EnrichResult := fun _ => ⟨some "u", some "d", some 4⟩

/-- An update input supplying only a new title. -/
def titleUpdate : BookUpdate := ⟨some (some "Dune Messiah"), none, none, none, none, none⟩

/-- Witness for C2 (amended): both directions exercised — truthy results
carried on a concrete create and a concrete title-bearing update, falsy
(absent) results ignored on a concrete create. -/
theorem enrich_truthy_results_carried_witness :
    (create ⟨[], 1⟩ sampleCreate richEnrich).1.cover_url = some "u" ∧
    (create ⟨[], 1⟩ sampleCreate richEnrich).1.rating = some 4 ∧
    (create ⟨[], 1⟩ sampleCreate noEnrich).1.cover_url = none ∧
    (∃ m, (update sampleState 1 titleUpdate richEnrich).1 = some m ∧
      m.cover_url = some "u") := by
  refine ⟨((enrich_truthy_results_carried ⟨[], 1⟩ sampleCreate 1 titleUpdate sampleBook
      richEnrich).1.1 (by decide)).trans rfl,
    ((enrich_truthy_results_carried ⟨[], 1⟩ sampleCreate 1 titleUpdate sampleBook
      richEnrich).2.2.1.1 (by decide)).trans rfl,
    (enrich_truthy_results_carried ⟨[], 1⟩ sampleCreate 1 titleUpdate sampleBook
      noEnrich).1.2 (by decide), ?_⟩
  obtain ⟨m, hm, hc, _, _⟩ :=
    (enrich_truthy_results_carried sampleState sampleCreate 1 titleUpdate sampleBook
      richEnrich).2.2.2.2 (by decide) (by decide)
  exact ⟨m, hm, (hc.1 (by decide)).trans rfl⟩

/-- C4: an update whose input contains the title, when the re-enrichment
of the merged title returns the all-absent triple, yields a record whose
cover, description and rating equal the previously stored values. -/
theorem update_title_absent_enrich_preserves
    (s : CollectionState) (book_id : Int) (u : BookUpdate) (b : Book)
    (enrichFn : String → EnrichResult)
    (h : get_by_id s book_id = some b)
    (ht : u.title.isSome = true)
    (he : enrichFn (applyUpdate b u).title = ⟨none, none, none⟩) :
    ∃ m, (update s book_id u enrichFn).1 = some m ∧
      m.cover_url = b.cover_url ∧ m.description = b.description ∧
      m.rating = b.rating := by
  refine ⟨overlayEnrich (applyUpdate b u) (enrichFn (applyUpdate b u).title), ?_, ?_, ?_, ?_⟩
  · simp only [update, h, ht, if_true]
  · rw [he]
    simpa [overlayEnrich, pyTruthyStr] using applyUpdate_cover_url b u
  · rw [he]
    simpa [overlayEnrich, pyTruthyStr] using applyUpdate_description b u
  · rw [he]
    simpa [overlayEnrich, pyTruthyRat] using applyUpdate_rating b u

/-- A stored record already carrying enrichment data. -/
def richBook : Book :=
  { sampleBook with
    cover_url := some "https://covers.example/1-M.jpg"
    description := some "A desert planet."
    rating := some 4 }

/-- A collection holding the enriched sample record. -/
def richState : CollectionState := ⟨[richBook], 2⟩

/-- Witness for C4: a concrete title-changing update under absent
enrichment keeps the stored cover, description and rating. -/
theorem update_title_absent_enrich_preserves_witness :
    ∃ m, (update richState 1 titleUpdate noEnrich).1 = some m ∧
      m.cover_url = richBook.cover_url ∧ m.description = richBook.description ∧
      m.rating = richBook.rating :=
  update_title_absent_enrich_preserves richState 1 titleUpdate richBook noEnrich
    (by decide) (by decide) rfl

/-- Counterexample to C5 as stated: an empty-string author filter is
supplied, no stored author equals it case-insensitively, yet the record is
returned — the source treats a falsy (empty) filter as no filter at
all. -/
theorem get_all_empty_author_filter_counterexample :
    get_all sampleState 0 100 (some "") none none = [sampleBook] ∧
    sampleBook.author.toLower ≠ "" := by
  constructor
  · rfl
  · exact toLower_ne_empty (by decide)

/-- Spec-side author predicate (refinement side, from the spec's filtering
sentence with the empty-filter proviso the counterexample forces): a
record matches when the filter is unsupplied or empty, or equals the
record's author case-insensitively. -/
def authorMatches (author : Option String) (b : Book) : Bool :=
  match author with
  | none => true
  | some a => if a = "" then true else decide (b.author.toLower = a.toLower)

/-- Spec-side genre predicate, same shape as the author predicate. -/
def genreMatches (genre : Option String) (b : Book) : Bool :=
  match genre with
  | none => true
  | some g => if g = "" then true else decide (b.genre.toLower = g.toLower)

/-- Spec-side availability predicate: exact match when supplied. -/
def availabilityMatches (availability : Option AvailabilityStatus) (b : Book) : Bool :=
  match availability with
  | none => true
  | some av => decide (b.availability = av)

/-- Spec-side record predicate for read-all: all three filters match. -/
def matchesFilters (author genre : Option String)
    (availability : Option AvailabilityStatus) (b : Book) : Bool :=
  authorMatches author b && genreMatches genre b && availabilityMatches availability b

/-- The author loop guard is the negation of the spec-side predicate. -/
theorem authorSkip_eq (a : Option String) (b : Book) :
    authorSkip a b = !authorMatches a b := by
  cases a with
  | none => rfl
  | some x =>
    by_cases hx : x = ""
    · simp [authorSkip, authorMatches, hx]
    · simp [authorSkip, authorMatches, hx, decide_not]

/-- The genre loop guard is the negation of the spec-side predicate. -/
theorem genreSkip_eq (g : Option String) (b : Book) :
    genreSkip g b = !genreMatches g b := by
  cases g with
  | none => rfl
  | some x =>
    by_cases hx : x = ""
    · simp [genreSkip, genreMatches, hx]
    · simp [genreSkip, genreMatches, hx, decide_not]

/-- The availability loop guard is the negation of the spec-side
predicate. -/
theorem availabilitySkip_eq (av : Option AvailabilityStatus) (b : Book) :
    availabilitySkip av b = !availabilityMatches av b := by
  cases av with
  | none => rfl
  | some x => simp [availabilitySkip, availabilityMatches, decide_not]

/-- The filtering loop keeps exactly the records the spec-side predicate
accepts, in stored order. -/
theorem filterLoop_eq_filter (a g : Option String)
    (av : Option AvailabilityStatus) (l : List Book) :
    filterLoop a g av l = l.filter (matchesFilters a g av) := by
  induction l with
  | nil => rfl
  | cons x xs ih =>
    simp only [filterLoop, authorSkip_eq, genreSkip_eq, availabilitySkip_eq, List.filter_cons]
    cases hA : authorMatches a x <;> cases hG : genreMatches g x <;>
      cases hV : availabilityMatches av x <;>
      simp [matchesFilters, hA, hG, hV, ih]

/-- C5 (amended): read-all returns exactly the records matching every
supplied filter — author and genre case-insensitively and exactly when
the filter is non-empty (an empty-string filter matches everything),
availability exactly — with the offset/limit slice applied to the
filtered ordered result, never to the unfiltered collection. -/
theorem get_all_eq_filter_then_slice (s : CollectionState) (offset limit : Nat)
    (author genre : Option String) (availability : Option AvailabilityStatus) :
    get_all s offset limit author genre availability =
      ((s.books.filter (matchesFilters author genre availability)).drop offset).take limit := by
  unfold get_all
  rw [filterLoop_eq_filter]

/-- The merge loop leaves the title unchanged when the input's title key
is unset or null. -/
theorem applyUpdate_title_of_not_set {u : BookUpdate} (b : Book)
    (hv : ∀ v, u.title ≠ some (some v)) :
    (applyUpdate b u).title = b.title := by
  cases hu : u.title with
  | none => simp [applyUpdate, hu]
  | some o =>
    cases o with
    | none => simp [applyUpdate, hu]
    | some v => exact absurd hu (hv v)

/-- The merge loop leaves the author unchanged when the input's author key
is unset or null. -/
theorem applyUpdate_author_of_not_set {u : BookUpdate} (b : Book)
    (hv : ∀ v, u.author ≠ some (some v)) :
    (applyUpdate b u).author = b.author := by
  cases hu : u.author with
  | none => simp [applyUpdate, hu]
  | some o =>
    cases o with
    | none => simp [applyUpdate, hu]
    | some v => exact absurd hu (hv v)

/-- The merge loop leaves the publication year unchanged when the input's
key is unset or null. -/
theorem applyUpdate_publication_year_of_not_set {u : BookUpdate} (b : Book)
    (hv : ∀ v, u.publication_year ≠ some (some v)) :
    (applyUpdate b u).publication_year = b.publication_year := by
  cases hu : u.publication_year with
  | none => simp [applyUpdate, hu]
  | some o =>
    cases o with
    | none => simp [applyUpdate, hu]
    | some v => exact absurd hu (hv v)

/-- The merge loop leaves the genre unchanged when the input's key is
unset or null. -/
theorem applyUpdate_genre_of_not_set {u : BookUpdate} (b : Book)
    (hv : ∀ v, u.genre ≠ some (some v)) :
    (applyUpdate b u).genre = b.genre := by
  cases hu : u.genre with
  | none => simp [applyUpdate, hu]
  | some o =>
    cases o with
    | none => simp [applyUpdate, hu]
    | some v => exact absurd hu (hv v)

/-- The merge loop leaves the page count unchanged when the input's key is
unset or null. -/
theorem applyUpdate_pages_of_not_set {u : BookUpdate} (b : Book)
    (hv : ∀ v, u.pages ≠ some (some v)) :
    (applyUpdate b u).pages = b.pages := by
  cases hu : u.pages with
  | none => simp [applyUpdate, hu]
  | some o =>
    cases o with
    | none => simp [applyUpdate, hu]
    | some v => exact absurd hu (hv v)

/-- The merge loop leaves the availability unchanged when the input's key
is unset or null. -/
theorem applyUpdate_availability_of_not_set {u : BookUpdate} (b : Book)
    (hv : ∀ v, u.availability ≠ some (some v)) :
    (applyUpdate b u).availability = b.availability := by
  cases hu : u.availability with
  | none => simp [applyUpdate, hu]
  | some o =>
    cases o with
    | none => simp [applyUpdate, hu]
    | some v => exact absurd hu (hv v)

/-- An update input whose title key is explicitly set to null. -/
def nullTitleUpdate : BookUpdate := ⟨some none, none, none, none, none, none⟩

/-- An enrichment stub that finds a cover. -/
def coverEnrich : String → EnrichResult := fun _ => ⟨some "https://c/1-M.jpg", none, none⟩

/-- Counterexample to C10 as stated: a title explicitly set to null is not
treated the same as an absent title — it still counts as a present title
key, so enrichment is re-invoked with the unchanged title and overwrites
the absent cover, while the same update without the title key leaves the
cover absent. -/
theorem update_null_title_differs_from_absent :
    (update sampleState 1 nullTitleUpdate coverEnrich).1
      = some { sampleBook with cover_url := some "https://c/1-M.jpg" } ∧
    (update sampleState 1 BookUpdate.empty coverEnrich).1 = some sampleBook ∧
    (update sampleState 1 nullTitleUpdate coverEnrich).1
      ≠ (update sampleState 1 BookUpdate.empty coverEnrich).1 := by
  refine ⟨by decide, by decide, by decide⟩

/-- C10 (amended): an explicitly-null field is never overlaid — the stored
value of that field is untouched, and only fields both present and
non-null are overlaid; no update can clear an optional field to null (a
present optional field stays present).  The exception the counterexample
forces: a null title still counts as a present title key and re-triggers
enrichment with the unchanged title, which may alter cover, description
and rating. -/
theorem update_null_fields_not_overlaid
    (s : CollectionState) (book_id : Int) (u : BookUpdate) (b m : Book)
    (enrichFn : String → EnrichResult)
    (h : get_by_id s book_id = some b)
    (hm : (update s book_id u enrichFn).1 = some m) :
    ((∀ v, u.title ≠ some (some v)) → m.title = b.title) ∧
    ((∀ v, u.author ≠ some (some v)) → m.author = b.author) ∧
    ((∀ v, u.publication_year ≠ some (some v)) →
      m.publication_year = b.publication_year) ∧
    ((∀ v, u.genre ≠ some (some v)) → m.genre = b.genre) ∧
    ((∀ v, u.pages ≠ some (some v)) → m.pages = b.pages) ∧
    ((∀ v, u.availability ≠ some (some v)) → m.availability = b.availability) ∧
    (b.cover_url.isSome → m.cover_url.isSome) ∧
    (b.description.isSome → m.description.isSome) ∧
    (b.rating.isSome → m.rating.isSome) := by
  have hm2 : m = (if u.title.isSome then
      overlayEnrich (applyUpdate b u) (enrichFn (applyUpdate b u).title)
    else applyUpdate b u) := by
    simp only [update, h, Option.some.injEq] at hm
    exact hm.symm
  subst hm2
  refine ⟨?_, ?_, ?_, ?_, ?_, ?_, ?_, ?_, ?_⟩
  · intro hv
    by_cases hts : u.title.isSome = true <;>
      simp [hts, overlayEnrich_title, applyUpdate_title_of_not_set b hv]
  · intro hv
    by_cases hts : u.title.isSome = true <;>
      simp [hts, overlayEnrich_author, applyUpdate_author_of_not_set b hv]
  · intro hv
    by_cases hts : u.title.isSome = true <;>
      simp [hts, overlayEnrich_publication_year,
        applyUpdate_publication_year_of_not_set b hv]
  · intro hv
    by_cases hts : u.title.isSome = true <;>
      simp [hts, overlayEnrich_genre, applyUpdate_genre_of_not_set b hv]
  · intro hv
    by_cases hts : u.title.isSome = true <;>
      simp [hts, overlayEnrich_pages, applyUpdate_pages_of_not_set b hv]
  · intro hv
    by_cases hts : u.title.isSome = true <;>
      simp [hts, overlayEnrich_availability, applyUpdate_availability_of_not_set b hv]
  · intro hp
    by_cases hts : u.title.isSome = true
    · simp only [hts, if_true, overlayEnrich]
      split
      · exact pyTruthyStr_isSome (by assumption)
      · rw [applyUpdate_cover_url]
        exact hp
    · simp only [hts, if_false, Bool.false_eq_true]
      rw [applyUpdate_cover_url]
      exact hp
  · intro hp
    by_cases hts : u.title.isSome = true
    · simp only [hts, if_true, overlayEnrich]
      split
      · exact pyTruthyStr_isSome (by assumption)
      · rw [applyUpdate_description]
        exact hp
    · simp only [hts, if_false, Bool.false_eq_true]
      rw [applyUpdate_description]
      exact hp
  · intro hp
    by_cases hts : u.title.isSome = true
    · simp only [hts, if_true, overlayEnrich]
      split
      · exact pyTruthyRat_isSome (by assumption)
      · rw [applyUpdate_rating]
        exact hp
    · simp only [hts, if_false, Bool.false_eq_true]
      rw [applyUpdate_rating]
      exact hp

/-- Witness for C10 (amended): a concrete null-title update leaves every
stored field's value or presence intact under falsy enrichment. -/
theorem update_null_fields_not_overlaid_witness :
    (update richState 1 nullTitleUpdate noEnrich).1 = some richBook ∧
    richBook.cover_url.isSome = true :=
  ⟨by decide,
   (update_null_fields_not_overlaid richState 1 nullTitleUpdate richBook richBook
      noEnrich (by decide) (by decide)).2.2.2.2.2.2.1 (by decide)⟩

/-- Witness for C6 starting from the empty collection. -/
theorem create_get_by_id_roundtrip_witness :
    get_by_id (create ⟨[], 1⟩ sampleCreate noEnrich).2
        (create ⟨[], 1⟩ sampleCreate noEnrich).1.id
      = some (create ⟨[], 1⟩ sampleCreate noEnrich).1 ∧
    (create ⟨[], 1⟩ sampleCreate noEnrich).1.title = sampleCreate.title :=
  ⟨(create_get_by_id_roundtrip ⟨[], 1⟩ sampleCreate noEnrich (by simp)).1,
   (create_get_by_id_roundtrip ⟨[], 1⟩ sampleCreate noEnrich (by simp)).2.1⟩

/-! Trace semantics for identity assignment: sequences of create and
delete calls against one backend instance. -/

/-- One CRUD call of the identity-relevant kind. -/
inductive Op where
  | createOp (input : BookCreate)
  | deleteOp (book_id : Int)

/-- Run a sequence of create/delete calls on the JSON-backed service,
returning the final stored state and the identities the creates assigned,
in order. -/
def runOps (enrichFn : String → EnrichResult) :
    CollectionState → List Op → CollectionState × List Int
  | s, [] => (s, [])
  | s, Op.createOp input :: rest =>
    let r := create s input enrichFn
    let t := runOps enrichFn r.2 rest
    (t.1, r.1.id :: t.2)
  | s, Op.deleteOp i :: rest => runOps enrichFn (delete s i).2 rest

/-- Well-formedness of a stored collection: every stored identity is below
the counter, and the stored identities are pairwise distinct.  This holds
for the empty initial state and is preserved by every operation. -/
def wf (s : CollectionState) : Prop :=
  (∀ b ∈ s.books, b.id < s.next_id) ∧ (s.books.map (fun b => b.id)).Nodup

/-- The identity create assigns is the current counter. -/
theorem create_book_id (s : CollectionState) (input : BookCreate)
    (f : String → EnrichResult) : (create s input f).1.id = s.next_id := rfl

/-- Create bumps the counter by one. -/
theorem create_next_id (s : CollectionState) (input : BookCreate)
    (f : String → EnrichResult) : (create s input f).2.next_id = s.next_id + 1 := rfl

/-- Delete never changes the counter. -/
theorem delete_next_id (s : CollectionState) (i : Int) :
    (delete s i).2.next_id = s.next_id := by
  cases h : get_by_id s i <;> simp [delete, h]

/-- Delete only removes records. -/
theorem delete_books_subset (s : CollectionState) (i : Int) :
    ∀ b ∈ (delete s i).2.books, b ∈ s.books := by
  cases h : get_by_id s i with
  | none => intro b hb; simpa [delete, h] using hb
  | some x =>
    intro b hb
    simp only [delete, h] at hb
    exact (List.mem_filter.mp hb).1

/-- Create preserves well-formedness. -/
theorem wf_create (s : CollectionState) (input : BookCreate)
    (f : String → EnrichResult) (h : wf s) : wf (create s input f).2 := by
  obtain ⟨hlt, hnd⟩ := h
  constructor
  · intro b hb
    simp only [create] at hb
    rw [create_next_id]
    rcases List.mem_append.mp hb with h1 | h1
    · have := hlt b h1
      omega
    · have hb2 : b = overlayEnrich (mkBook s.next_id input) (f input.title) := by
        simpa using h1
      subst hb2
      have : (overlayEnrich (mkBook s.next_id input) (f input.title)).id = s.next_id := rfl
      omega
  · simp only [create, List.map_append, List.map_cons, List.map_nil]
    rw [List.nodup_append]
    refine ⟨hnd, List.nodup_singleton _, ?_⟩
    intro x hx hx1
    simp only [List.mem_map] at hx
    obtain ⟨b, hb, rfl⟩ := hx
    have h1 := hlt b hb
    have h2 : (overlayEnrich (mkBook s.next_id input) (f input.title)).id = s.next_id := rfl
    simp only [List.mem_singleton] at hx1
    omega

/-- Delete preserves well-formedness. -/
theorem wf_delete (s : CollectionState) (i : Int) (h : wf s) : wf (delete s i).2 := by
  obtain ⟨hlt, hnd⟩ := h
  constructor
  · intro b hb
    rw [delete_next_id]
    exact hlt b (delete_books_subset s i b hb)
  · cases hg : get_by_id s i with
    | none => simpa [delete, hg] using hnd
    | some x =>
      simp only [delete, hg]
      exact hnd.sublist ((List.filter_sublist _).map _)

/-- The counter never decreases along a run. -/
theorem runOps_next_le (f : String → EnrichResult) (s : CollectionState)
    (ops : List Op) : s.next_id ≤ ((runOps f s ops).1).next_id := by
  induction ops generalizing s with
  | nil => simp [runOps]
  | cons op rest ih =>
    cases op with
    | createOp input =>
      simp only [runOps]
      have h1 := ih ((create s input f).2)
      rw [create_next_id] at h1
      omega
    | deleteOp i =>
      simp only [runOps]
      have h1 := ih ((delete s i).2)
      rwa [delete_next_id] at h1

/-- Every identity assigned along a run is at least the starting
counter. -/
theorem runOps_ids_lb (f : String → EnrichResult) (s : CollectionState)
    (ops : List Op) : ∀ j ∈ (runOps f s ops).2, s.next_id ≤ j := by
  induction ops generalizing s with
  | nil => simp [runOps]
  | cons op rest ih =>
    cases op with
    | createOp input =>
      intro j hj
      simp only [runOps, List.mem_cons] at hj
      rcases hj with rfl | hj
      · rw [create_book_id]
      · have h1 := ih ((create s input f).2) j hj
        rw [create_next_id] at h1
        omega
    | deleteOp i =>
      intro j hj
      simp only [runOps] at hj
      have h1 := ih ((delete s i).2) j hj
      rwa [delete_next_id] at h1

/-- Well-formedness is preserved along a run. -/
theorem runOps_wf (f : String → EnrichResult) (s : CollectionState)
    (ops : List Op) (h : wf s) : wf (runOps f s ops).1 := by
  induction ops generalizing s with
  | nil => simpa [runOps] using h
  | cons op rest ih =>
    cases op with
    | createOp input =>
      simpa only [runOps] using ih ((create s input f).2) (wf_create s input f h)
    | deleteOp i =>
      simpa only [runOps] using ih ((delete s i).2) (wf_delete s i h)

/-- The identities assigned along a run are strictly increasing. -/
theorem runOps_chain (f : String → EnrichResult) (s : CollectionState)
    (ops : List Op) : List.Chain' (· < ·) (runOps f s ops).2 := by
  induction ops generalizing s with
  | nil => simp [runOps]
  | cons op rest ih =>
    cases op with
    | createOp input =>
      simp only [runOps]
      rw [List.chain'_cons']
      constructor
      · intro j hj
        have hmem : j ∈ (runOps f (create s input f).2 rest).2 :=
          List.mem_of_mem_head? hj
        have h2 := runOps_ids_lb f ((create s input f).2) rest j hmem
        rw [create_next_id] at h2
        rw [create_book_id]
        omega
      · exact ih _
    | deleteOp i =>
      simpa only [runOps] using ih ((delete s i).2)

/-- A successfully deleted identity is below the counter at that moment,
so no later create — whose identity is at least that counter — ever
assigns it again. -/
theorem runOps_deleted_not_reassigned (f : String → EnrichResult)
    (s : CollectionState) (pre : List Op) (d : Int) (post : List Op)
    (h : wf s)
    (hdel : (delete (runOps f s pre).1 d).1 = true) :
    d ∉ (runOps f (delete (runOps f s pre).1 d).2 post).2 := by
  have hwf1 : wf (runOps f s pre).1 := runOps_wf f s pre h
  have hsome : ∃ b, get_by_id (runOps f s pre).1 d = some b := by
    cases hg : get_by_id (runOps f s pre).1 d with
    | none => simp [delete, hg] at hdel
    | some b => exact ⟨b, rfl⟩
  obtain ⟨b, hb⟩ := hsome
  have hmem : b ∈ (runOps f s pre).1.books := List.mem_of_find?_eq_some hb
  have hid : b.id = d := by simpa using List.find?_some hb
  have hlt : d < (runOps f s pre).1.next_id := hid ▸ hwf1.1 b hmem
  intro hin
  have hge := runOps_ids_lb f ((delete (runOps f s pre).1 d).2) post d hin
  rw [delete_next_id] at hge
  omega

/-- C1 (amended, JSON/File counter backend): starting from any
well-formed state, the identities assigned by successive creates are
strictly increasing (hence unique), the final stored collection carries
pairwise distinct identities, and an identity a delete successfully
removed is never assigned by any later create in the run. -/
theorem create_ids_unique_monotone_not_reused
    (f : String → EnrichResult) (s : CollectionState) (ops : List Op)
    (h : wf s) :
    List.Chain' (· < ·) (runOps f s ops).2 ∧
    (((runOps f s ops).1.books.map (fun b => b.id)).Nodup) ∧
    (∀ pre d post, ops = pre ++ Op.deleteOp d :: post →
      (delete (runOps f s pre).1 d).1 = true →
      d ∉ (runOps f (delete (runOps f s pre).1 d).2 post).2) := by
  refine ⟨runOps_chain f s ops, (runOps_wf f s ops h).2, ?_⟩
  intro pre d post _ hdel
  exact runOps_deleted_not_reassigned f s pre d post h hdel

/-- A concrete run: create, delete the first record, create again. -/
def opsDemo : List Op :=
  [Op.createOp sampleCreate, Op.deleteOp 1, Op.createOp sampleCreate]

/-- Witness for C1 (amended) on a concrete run from the empty state. -/
theorem create_ids_unique_monotone_not_reused_witness :
    List.Chain' (· < ·) (runOps noEnrich ⟨[], 1⟩ opsDemo).2 ∧
    ((runOps noEnrich ⟨[], 1⟩ opsDemo).1.books.map (fun b => b.id)).Nodup :=
  ⟨(create_ids_unique_monotone_not_reused noEnrich ⟨[], 1⟩ opsDemo
      (by constructor <;> simp)).1,
   (create_ids_unique_monotone_not_reused noEnrich ⟨[], 1⟩ opsDemo
      (by constructor <;> simp)).2.1⟩

end BookCrudService

/-- Two creates on the Postgres backend from an empty table. -/
def dbTable1 : List Book :=
  (DbPostgresRepository.db_create [] sampleCreate noEnrich).2

/-- The table after the second create (rows with ids 1 and 2). -/
def dbTable2 : List Book :=
  (DbPostgresRepository.db_create dbTable1 sampleCreate noEnrich).2

/-- Counterexample to C1 as stated: on the Postgres backend the second
create assigns identity 2, deleting identity 2 succeeds, and the next
create assigns identity 2 again — `get_next_id` is max-plus-one, so a
deleted identity is reassigned and successive creates can repeat an
identity. -/
theorem db_deleted_id_reassigned_counterexample :
    (DbPostgresRepository.db_create dbTable1 sampleCreate noEnrich).1.id = 2 ∧
    (DbPostgresRepository.db_delete dbTable2 2).1 = true ∧
    (DbPostgresRepository.db_create (DbPostgresRepository.db_delete dbTable2 2).2
      sampleCreate noEnrich).1.id = 2 := by
  refine ⟨by decide, by decide, by decide⟩
